/-
Verification of the FED-Backend chatbot core against its specification.

The development shallowly embeds the relevant JavaScript modules:
 - controllers/chatbot/geminiService.js  (retry orchestrator, throttler, key pool)
 - controllers/chatbot/chatbotController.js (processMessage, fetchEventsData)
 - controllers/chatbot/promptBuilder.js  (buildMessageWithContext, requiresAuth)
 - controllers/chatbot/emailController.js and config/nodeMailer.js (sendEmail)

Machine integers are modelled as Nat / Int; wall-clock time is a virtual
Nat millisecond counter advanced explicitly by sleeps and call durations;
the upstream generation backend is an oracle function from the call
sequence number to an outcome.
-/
import Mathlib

namespace FED

/-- Boolean test: does the character list `cs` start with `needle`? -/
def startsWithList : List Char → List Char → Bool
  | [], _ => true
  | _ :: _, [] => false
  | c :: cs, d :: ds => c == d && startsWithList cs ds

/-- Boolean substring search on character lists (needle, haystack). -/
def containsSubList : List Char → List Char → Bool
  | needle, [] => startsWithList needle []
  | needle, d :: ds => startsWithList needle (d :: ds) || containsSubList needle ds

/-- Embedding of JavaScript `haystack.includes(needle)` for strings. -/
def containsSub (haystack needle : String) : Bool :=
  containsSubList needle.toList haystack.toList

/-- Model of JavaScript `s.trim()` over the character list: strip leading and
trailing whitespace (the `Char.isWhitespace` set stands in for the JS
WhiteSpace / LineTerminator set). -/
def jsTrim (s : String) : String :=
  String.mk (((s.toList.dropWhile (fun c => c.isWhitespace)).reverse.dropWhile
    (fun c => c.isWhitespace)).reverse)

/-- Model of JavaScript `s.toLowerCase()` over the character list. -/
def lowerString (s : String) : String :=
  String.mk (s.toList.map Char.toLower)

namespace Gemini

/-- Embedding of the upstream error object: `message`, `status` (0 when the
object carries no status, mirroring `error.status || error.statusCode || 0`),
and the suggested retry delay.  The source parses a string such as "4s" out of
the RetryInfo error details with a regex and converts it to milliseconds; the
embedding carries that parsed millisecond result directly (`none` models both
a missing payload and an unparseable one). -/
structure UpErr where
  message : String
  status : Nat
  retryDelayMs : Option Nat
deriving Repr, DecidableEq

/-- Outcome of one upstream call attempt. -/
inductive Outcome
  | ok (text : String)
  | err (e : UpErr)
deriving Repr, DecidableEq

/-- Embedding of RETRY_CONFIG from geminiService.js. -/
structure RetryConfig where
  maxRetries : Nat
  initialDelayMs : Nat
  maxDelayMs : Nat
  backoffMultiplier : Nat
deriving Repr, DecidableEq

/-- RETRY_CONFIG = { maxRetries: 2, initialDelayMs: 1000, maxDelayMs: 5000,
backoffMultiplier: 2 }. -/
def RETRY_CONFIG : RetryConfig :=
  { maxRetries := 2, initialDelayMs := 1000, maxDelayMs := 5000, backoffMultiplier := 2 }

/-- MIN_REQUEST_INTERVAL_MS = 500. -/
def MIN_REQUEST_INTERVAL_MS : Nat := 500

/-- Embedding of getBackoffDelay: min(initialDelay * multiplier ^ attempt, maxDelay). -/
def getBackoffDelay (attempt : Nat) : Nat :=
  min (RETRY_CONFIG.initialDelayMs * RETRY_CONFIG.backoffMultiplier ^ attempt)
    RETRY_CONFIG.maxDelayMs

/-- Embedding of isRetryableError from geminiService.js. -/
def isRetryableError (e : UpErr) : Bool :=
  if e.status == 429 || containsSub e.message "429" ||
      containsSub e.message "Too Many Requests" then
    true
  else if decide (500 ≤ e.status) && decide (e.status < 600) then
    true
  else if containsSub e.message "quota" || containsSub e.message "rate limit" then
    true
  else
    false

/-- Embedding of getRetryDelayFromError: the suggested delay carried by the
error payload, already converted to milliseconds (see `UpErr`). -/
def getRetryDelayFromError (e : UpErr) : Option Nat := e.retryDelayMs

/-- Embedding of `const delayMs = errorDelay || backoffDelay` in the retry
branch: a present, nonzero suggested delay wins; a missing suggestion or the
JavaScript-falsy value 0 falls back to the computed backoff. -/
def delayMsFor (e : UpErr) (attempt : Nat) : Nat :=
  match getRetryDelayFromError e with
  | some d => if d == 0 then getBackoffDelay attempt else d
  | none => getBackoffDelay attempt

/-- Mutable process state threaded through one dispatch: virtual time,
`lastRequestTime`, `currentKeyIndex`, the upstream call sequence number, and
the `lastError` local of generateResponse. -/
structure RunSt where
  time : Nat
  lastRequestTime : Nat
  currentKeyIndex : Nat
  callNo : Nat
  lastError : Option UpErr
deriving Repr, DecidableEq

/-- Observable events of one dispatch, in order of occurrence. -/
inductive Ev
  | throttleSleep (ms : Nat)
  | attempt (time keyIndex attemptNo : Nat)
  | backoffSleep (ms : Nat)
  | rotate (fromIdx toIdx : Nat)
deriving Repr, DecidableEq

/-- Result of the per-credential retry loop. -/
inductive AttemptsRes
  | done (text : String)
  | failedKey
deriving Repr, DecidableEq

/-- Embedding of the inner `for (attempt = 0; attempt <= maxRetries; ...)`
loop of generateResponse for one credential.  `fuel` counts the loop
iterations still allowed (initially maxRetries + 1); `fuel != 0` after
consuming the current iteration is exactly the source's `attempt < maxRetries`.
Each iteration records `lastRequestTime = Date.now()`, attempts the call
(advancing virtual time by the call duration), and on error either breaks out
to rotate (retryable error whose message contains "429"), sleeps the backoff
delay and retries (other retryable error with budget left), retries without
sleeping (non-retryable error with budget left, as in the source, which falls
through its catch block), or gives the credential up. -/
def runAttempts (env : Nat → Outcome) (dur : Nat → Nat) (key : Nat) :
    Nat → Nat → RunSt → AttemptsRes × RunSt × List Ev
  | _, 0, st => (.failedKey, st, [])
  | attempt, fuel + 1, st =>
    let ev0 := Ev.attempt st.time key attempt
    let st1 : RunSt := { st with lastRequestTime := st.time }
    match env st.callNo with
    | .ok text =>
      (.done text, { st1 with time := st1.time + dur st.callNo, callNo := st.callNo + 1 }, [ev0])
    | .err e =>
      let st2 : RunSt :=
        { st1 with time := st1.time + dur st.callNo, callNo := st.callNo + 1, lastError := some e }
      if isRetryableError e && containsSub e.message "429" then
        (.failedKey, st2, [ev0])
      else if (fuel != 0) && isRetryableError e then
        let d := delayMsFor e attempt
        let st3 : RunSt := { st2 with time := st2.time + d }
        let r := runAttempts env dur key (attempt + 1) fuel st3
        (r.1, r.2.1, ev0 :: Ev.backoffSleep d :: r.2.2)
      else if fuel != 0 then
        let r := runAttempts env dur key (attempt + 1) fuel st2
        (r.1, r.2.1, ev0 :: r.2.2)
      else
        (.failedKey, st2, [ev0])

/-- Result of one whole dispatch through generateResponse. -/
inductive GenResult
  | success (text : String)
  | exhausted (errMessage : String)
deriving Repr, DecidableEq

/-- Embedding of the thrown exhaustion error message:
`Gemini API Error: ${lastError?.message || 'All API keys exhausted'}`. -/
def exhaustMsg (lastError : Option UpErr) : String :=
  "Gemini API Error: " ++
    (match lastError with
     | some e => if e.message == "" then "All API keys exhausted" else e.message
     | none => "All API keys exhausted")

/-- Embedding of the outer `while (keysTriedCount < API_KEYS.length)` loop.
`fuel` is numKeys - keysTriedCount.  After a credential fails, the cursor is
rotated (cyclically) only when another untried credential remains, exactly as
`if (keysTriedCount < API_KEYS.length) rotateToNextKey()` in the source. -/
def runKeys (env : Nat → Outcome) (dur : Nat → Nat) (numKeys : Nat) :
    Nat → RunSt → GenResult × RunSt × List Ev
  | 0, st => (.exhausted (exhaustMsg st.lastError), st, [])
  | fuel + 1, st =>
    let r := runAttempts env dur st.currentKeyIndex 0 (RETRY_CONFIG.maxRetries + 1) st
    match r.1 with
    | .done text => (.success text, r.2.1, r.2.2)
    | .failedKey =>
      let stF := r.2.1
      if fuel != 0 then
        let idx := stF.currentKeyIndex
        let idx2 := (idx + 1) % numKeys
        let k1 := runKeys env dur numKeys fuel { stF with currentKeyIndex := idx2 }
        (k1.1, k1.2.1, r.2.2 ++ Ev.rotate idx idx2 :: k1.2.2)
      else
        let k2 := runKeys env dur numKeys fuel stF
        (k2.1, k2.2.1, r.2.2 ++ k2.2.2)

/-- Embedding of generateResponse: the throttle step runs once at entry
(sleep the remaining spacing when less than MIN_REQUEST_INTERVAL_MS has
elapsed since lastRequestTime), then the outer credential loop runs with
fuel = numKeys. -/
def generateResponse (env : Nat → Outcome) (dur : Nat → Nat) (numKeys : Nat)
    (time0 lastRequestTime0 keyIndex0 : Nat) : GenResult × RunSt × List Ev :=
  let tslr := time0 - lastRequestTime0
  let sleepMs := if tslr < MIN_REQUEST_INTERVAL_MS then MIN_REQUEST_INTERVAL_MS - tslr else 0
  let tr0 : List Ev :=
    if tslr < MIN_REQUEST_INTERVAL_MS then [Ev.throttleSleep sleepMs] else []
  let st0 : RunSt :=
    { time := time0 + sleepMs, lastRequestTime := lastRequestTime0,
      currentKeyIndex := keyIndex0, callNo := 0, lastError := none }
  let r := runKeys env dur numKeys numKeys st0
  (r.1, r.2.1, tr0 ++ r.2.2)

/-- Times at which upstream attempts were made, in order. -/
def attemptTimes : List Ev → List Nat
  | [] => []
  | Ev.attempt t _ _ :: rest => t :: attemptTimes rest
  | _ :: rest => attemptTimes rest

/-- Number of upstream attempts in a trace. -/
def attemptCount (tr : List Ev) : Nat := (attemptTimes tr).length

/-- Number of credential rotations in a trace. -/
def rotateCount : List Ev → Nat
  | [] => 0
  | Ev.rotate _ _ :: rest => rotateCount rest + 1
  | _ :: rest => rotateCount rest

/-- Backoff sleep durations in a trace, in order. -/
def backoffSleeps : List Ev → List Nat
  | [] => []
  | Ev.backoffSleep d :: rest => d :: backoffSleeps rest
  | _ :: rest => backoffSleeps rest

/-- Every two consecutive entries of the list are at least `m` apart. -/
def gapsAtLeast (m : Nat) : List Nat → Bool
  | [] => true
  | [_] => true
  | a :: b :: rest => decide (a + m ≤ b) && gapsAtLeast m (b :: rest)

end Gemini

namespace Chat

/-- Leading decimal digits of a character list. -/
def leadingDigits : List Char → List Char
  | [] => []
  | c :: cs => if c.isDigit then c :: leadingDigits cs else []

/-- Value of a digit list read in base 10. -/
def digitsToNat (ds : List Char) : Nat :=
  ds.foldl (fun acc c => acc * 10 + (c.toNat - '0'.toNat)) 0

/-- Embedding of JavaScript `parseInt(s, 10)`: skip leading whitespace, read an
optional sign and then the longest run of decimal digits; `none` models NaN
(no digits found). -/
def parseIntJS (s : String) : Option Int :=
  let cs := s.toList.dropWhile (fun c => c.isWhitespace)
  let signAndRest : Int × List Char :=
    match cs with
    | '-' :: rest => (-1, rest)
    | '+' :: rest => (1, rest)
    | _ => (1, cs)
  let ds := leadingDigits signAndRest.2
  if ds.isEmpty then none
  else some (signAndRest.1 * (digitsToNat ds : Int))

/-- Embedding of `parseInt(form.info.eventPriority, 10) || 999`: `none` models
an absent field (parseInt then yields NaN); the JavaScript-falsy results NaN
and 0 both fall back to 999. -/
def eventPriorityOf (v : Option String) : Int :=
  match v with
  | none => 999
  | some s =>
    match parseIntJS s with
    | none => 999
    | some n => if n == 0 then 999 else n

/-- Embedding of `x || defaultString` for a possibly-absent string field:
absent and empty (falsy) both yield the default. -/
def jsOrStr (v : Option String) (d : String) : String :=
  match v with
  | some s => if s == "" then d else s
  | none => d

/-- Embedding of `x || null` for a possibly-absent string field. -/
def jsOrNull (v : Option String) : Option String :=
  match v with
  | some s => if s == "" then none else some s
  | none => none

/-- Embedding of `x || false` for a possibly-absent boolean field. -/
def jsTruthyB (v : Option Bool) : Bool := v == some true

/-- Embedding of the `info` JSON column of a form record.  `eventDate` is
modelled as the integer timestamp that `new Date(...).getTime()` yields on the
stored value; `eventPriority` is kept as the raw (possibly absent) string fed
to parseInt. -/
structure FormInfo where
  isPublic : Option Bool
  eventTitle : Option String
  eventDate : Int
  eventDescription : Option String
  eventVenue : Option String
  eventTime : Option String
  eventImg : Option String
  eventPriority : Option String
  registrationLink : Option String
  isRegistrationClosed : Option Bool
  isEventPast : Option Bool
  relatedEvent : Option String
deriving Repr, DecidableEq

/-- A form record as returned by `prisma.form.findMany({})`. -/
structure Form where
  id : Nat
  info : Option FormInfo
deriving Repr, DecidableEq

/-- The assembled event object built inside fetchEventsData. -/
structure EventData where
  id : Nat
  eventTitle : String
  eventDate : Int
  eventDescription : String
  eventVenue : Option String
  eventTime : Option String
  eventImg : Option String
  eventPriority : Int
  registrationLink : Option String
  isRegistrationClosed : Bool
  isEventPast : Bool
  relatedEvent : Option String
deriving Repr, DecidableEq

/-- Embedding of the eventData object literal in fetchEventsData. -/
def mkEventData (f : Form) (i : FormInfo) : EventData :=
  { id := f.id,
    eventTitle := jsOrStr i.eventTitle "Untitled Event",
    eventDate := i.eventDate,
    eventDescription := jsOrStr i.eventDescription "",
    eventVenue := jsOrNull i.eventVenue,
    eventTime := jsOrNull i.eventTime,
    eventImg := jsOrNull i.eventImg,
    eventPriority := eventPriorityOf i.eventPriority,
    registrationLink := jsOrNull i.registrationLink,
    isRegistrationClosed := jsTruthyB i.isRegistrationClosed,
    isEventPast := jsTruthyB i.isEventPast,
    relatedEvent := jsOrNull i.relatedEvent }

/-- Model of `a.localeCompare(b)` as a total string comparison returning
-1 / 0 / 1 (the locale-aware collation itself is outside the embedding; any
strict total order on strings supports the claims proved here). -/
def strCmpInt (a b : String) : Int :=
  if a < b then -1 else if a == b then 0 else 1

/-- Embedding of the ongoing-events sort comparator: priority difference,
then date difference, then title comparison. -/
def eventCmp (a b : EventData) : Int :=
  if a.eventPriority != b.eventPriority then a.eventPriority - b.eventPriority
  else if a.eventDate != b.eventDate then a.eventDate - b.eventDate
  else strCmpInt a.eventTitle b.eventTitle

/-- The comparator read as a boolean "less or equal". -/
def eventLeB (a b : EventData) : Bool := decide (eventCmp a b ≤ 0)

/-- Embedding of the past-events sort comparator `(a, b) => dateB - dateA`. -/
def pastCmp (a b : EventData) : Int := b.eventDate - a.eventDate

/-- The past-events comparator read as a boolean "less or equal". -/
def pastLeB (a b : EventData) : Bool := decide (pastCmp a b ≤ 0)

/-- The ordering the specification claims for ongoing events: priority
ascending, ties by date ascending, then title ascending. -/
def eventLe (a b : EventData) : Prop :=
  a.eventPriority < b.eventPriority ∨
    (a.eventPriority = b.eventPriority ∧
      (a.eventDate < b.eventDate ∨
        (a.eventDate = b.eventDate ∧ a.eventTitle ≤ b.eventTitle)))

/-- The `{ ongoingEvents, pastEvents }` pair returned by fetchEventsData. -/
structure EventsData where
  ongoingEvents : List EventData
  pastEvents : List EventData
deriving Repr, DecidableEq

/-- Embedding of fetchEventsData (the pure part, over the fetched form list):
keep forms with an info object flagged `isPublic === true`, build event data,
split on the truthiness of `isEventPast`, sort ongoing events with the
three-level comparator and past events by date descending.  The in-place
JavaScript sort is modelled by a stable merge sort driven by the same
comparator. -/
def fetchEventsData (forms : List Form) : EventsData :=
  let pubs := forms.filterMap (fun f =>
    match f.info with
    | some i => if i.isPublic == some true then some (f, i) else none
    | none => none)
  let ongoing := (pubs.filter (fun p => !(jsTruthyB p.2.isEventPast))).map
    (fun p => mkEventData p.1 p.2)
  let past := (pubs.filter (fun p => jsTruthyB p.2.isEventPast)).map
    (fun p => mkEventData p.1 p.2)
  { ongoingEvents := List.mergeSort ongoing eventLeB,
    pastEvents := List.mergeSort past pastLeB }

/-- A roster member snapshot row. -/
structure Member where
  id : Nat
  name : String
  access : String
  img : Option String
  extra : Option String
deriving Repr, DecidableEq

/-- A published article snapshot row. -/
structure Article where
  id : Nat
  title : String
  author : String
  category : String
  desc : String
  date : Int
  blogLink : String
  summary : String
deriving Repr, DecidableEq

/-- A formatted certificate of the authenticated caller. -/
structure Certificate where
  id : Nat
  eventName : String
  eventDescription : String
  mailed : Bool
  imageSrc : Option String
deriving Repr, DecidableEq

/-- A registered event of the authenticated caller. -/
structure RegisteredEvent where
  id : Nat
  eventTitle : String
  eventDate : Int
  isEventPast : Bool
deriving Repr, DecidableEq

/-- The userData object assembled in processMessage for a logged-in caller. -/
structure UserData where
  name : String
  email : String
  access : String
  certificates : List Certificate
  registeredEvents : List RegisteredEvent
  registeredEventCount : Nat
  certificateCount : Nat
deriving Repr, DecidableEq

/-- Wrap a string in JSON quotes (internal escaping is outside the model). -/
def quoteStr (s : String) : String := "\"" ++ s ++ "\""

/-- Serialize an optional string as JSON. -/
def jsonOptStr : Option String → String
  | none => "null"
  | some s => quoteStr s

/-- Serialize a boolean as JSON. -/
def jsonBool : Bool → String
  | true => "true"
  | false => "false"

/-- Wrap serialized fields into a JSON object. -/
def jsonObj (fields : List String) : String :=
  "\x7b" ++ String.intercalate "," fields ++ "\x7d"

/-- Wrap serialized items into a JSON array. -/
def jsonArr (items : List String) : String :=
  "[" ++ String.intercalate "," items ++ "]"

/-- Model of JSON.stringify for one assembled event. -/
def eventJson (e : EventData) : String :=
  jsonObj
    ["\"id\":" ++ toString e.id,
     "\"eventTitle\":" ++ quoteStr e.eventTitle,
     "\"eventDate\":" ++ toString e.eventDate,
     "\"eventDescription\":" ++ quoteStr e.eventDescription,
     "\"eventVenue\":" ++ jsonOptStr e.eventVenue,
     "\"eventTime\":" ++ jsonOptStr e.eventTime,
     "\"eventImg\":" ++ jsonOptStr e.eventImg,
     "\"eventPriority\":" ++ toString e.eventPriority,
     "\"registrationLink\":" ++ jsonOptStr e.registrationLink,
     "\"isRegistrationClosed\":" ++ jsonBool e.isRegistrationClosed,
     "\"isEventPast\":" ++ jsonBool e.isEventPast,
     "\"relatedEvent\":" ++ jsonOptStr e.relatedEvent]

/-- Model of JSON.stringify for an event list. -/
def eventsJson (l : List EventData) : String := jsonArr (l.map eventJson)

/-- Model of JSON.stringify for one roster member. -/
def memberJson (m : Member) : String :=
  jsonObj
    ["\"id\":" ++ toString m.id,
     "\"name\":" ++ quoteStr m.name,
     "\"access\":" ++ quoteStr m.access,
     "\"img\":" ++ jsonOptStr m.img,
     "\"extra\":" ++ jsonOptStr m.extra]

/-- Model of JSON.stringify for the roster list. -/
def membersJson (l : List Member) : String := jsonArr (l.map memberJson)

/-- Model of JSON.stringify for one article. -/
def articleJson (a : Article) : String :=
  jsonObj
    ["\"id\":" ++ toString a.id,
     "\"title\":" ++ quoteStr a.title,
     "\"author\":" ++ quoteStr a.author,
     "\"category\":" ++ quoteStr a.category,
     "\"desc\":" ++ quoteStr a.desc,
     "\"date\":" ++ toString a.date,
     "\"blogLink\":" ++ quoteStr a.blogLink,
     "\"summary\":" ++ quoteStr a.summary]

/-- Model of JSON.stringify for the article list. -/
def articlesJson (l : List Article) : String := jsonArr (l.map articleJson)

/-- Model of JSON.stringify for one certificate. -/
def certJson (c : Certificate) : String :=
  jsonObj
    ["\"id\":" ++ toString c.id,
     "\"eventName\":" ++ quoteStr c.eventName,
     "\"eventDescription\":" ++ quoteStr c.eventDescription,
     "\"mailed\":" ++ jsonBool c.mailed,
     "\"imageSrc\":" ++ jsonOptStr c.imageSrc]

/-- Model of JSON.stringify for the certificate list. -/
def certsJson (l : List Certificate) : String := jsonArr (l.map certJson)

/-- Model of JSON.stringify for one registered event. -/
def regJson (r : RegisteredEvent) : String :=
  jsonObj
    ["\"id\":" ++ toString r.id,
     "\"eventTitle\":" ++ quoteStr r.eventTitle,
     "\"eventDate\":" ++ toString r.eventDate,
     "\"isEventPast\":" ++ jsonBool r.isEventPast]

/-- Model of JSON.stringify for the registered-event list. -/
def regsJson (l : List RegisteredEvent) : String := jsonArr (l.map regJson)

/-- The ongoing events actually injected into the turn: `slice(0, 15)`. -/
def ongoingIncluded (ev : EventsData) : List EventData := ev.ongoingEvents.take 15

/-- The past events actually injected into the turn: `slice(0, 5)`. -/
def pastIncluded (ev : EventsData) : List EventData := ev.pastEvents.take 5

/-- The articles actually injected into the turn: `slice(0, 10)`. -/
def blogsIncluded (l : List Article) : List Article := l.take 10

/-- Embedding of buildMessageWithContext from promptBuilder.js: the grounded
query turn assembled by sequential appends, category by category. -/
def buildMessageWithContext (message : String) (teamData : List Member)
    (eventsData : EventsData) (blogsData : List Article)
    (userData : Option UserData) : String :=
  let c1 :=
    if teamData.length > 0 then
      "[TEAM DATA - " ++ toString teamData.length ++ " members]:\n" ++
        membersJson teamData ++ "\n\n"
    else ""
  let c2 :=
    if eventsData.ongoingEvents.length > 0 then
      "[ONGOING/LIVE EVENTS - " ++ toString eventsData.ongoingEvents.length ++
        " active events]:\n" ++ eventsJson (ongoingIncluded eventsData) ++ "\n\n"
    else "[ONGOING/LIVE EVENTS]: No ongoing events at the moment.\n\n"
  let c3 :=
    if eventsData.pastEvents.length > 0 then
      "[PAST EVENTS - " ++ toString eventsData.pastEvents.length ++
        " completed events]:\n" ++ eventsJson (pastIncluded eventsData) ++ "\n\n"
    else ""
  let c4 :=
    if blogsData.length > 0 then
      "[BLOGS - " ++ toString blogsData.length ++ " published articles]:\n" ++
        articlesJson (blogsIncluded blogsData) ++ "\n\n"
    else ""
  let c5 :=
    match userData with
    | some u =>
      "[LOGGED IN USER]: " ++ u.name ++ " (" ++ u.email ++ ")\n" ++
        (if u.certificates.length > 0 then
          "[USER\x27S CERTIFICATES - " ++ toString u.certificates.length ++ "]:\n" ++
            certsJson u.certificates ++ "\n\n"
        else "[USER\x27S CERTIFICATES]: No certificates earned yet.\n\n") ++
        (if u.registeredEvents.length > 0 then
          "[USER\x27S REGISTERED EVENTS - " ++ toString u.registeredEvents.length ++
            "]:\n" ++ regsJson u.registeredEvents ++ "\n\n"
        else "")
    | none => ""
  c1 ++ c2 ++ c3 ++ c4 ++ c5 ++ "[USER QUERY]: " ++ message

/-- The AUTH_REQUIRED_KEYWORDS list from promptBuilder.js. -/
def AUTH_REQUIRED_KEYWORDS : List String :=
  ["my certificate", "my certificates", "my profile", "my events",
   "my registration", "am i registered", "have i registered", "my account",
   "my details", "show my", "what events have i", "events i registered",
   "registered for"]

/-- Embedding of requiresAuth: the lower-cased message contains some
personal-data keyword. -/
def requiresAuth (message : String) : Bool :=
  AUTH_REQUIRED_KEYWORDS.any (fun kw => containsSub (lowerString message) kw)

/-- Side effects of processMessage that the claims observe, in order. -/
inductive Effect
  | fetchTeam
  | fetchEvents
  | fetchBlogs
  | fetchCertificates
  | fetchRegisteredEvents
  | fetchAlumni
  | genCall (n : Nat)
deriving Repr, DecidableEq

/-- The responses processMessage can return on the paths the claims cover. -/
inductive ChatResp
  | validationError
  | authRequired
  | ok (response : String)
deriving Repr, DecidableEq

/-- HTTP status of each response shape (validation 400; the auth-required
signal and success both 200). -/
def ChatResp.httpStatus : ChatResp → Nat
  | .validationError => 400
  | .authRequired => 200
  | .ok _ => 200

/-- An inbound request: `none` for message models a missing or non-string
body field (both rejected by the same validation branch). -/
structure ChatReq where
  message : Option String
  user : Option UserData
deriving Repr, DecidableEq

/-- Oracle for the generation backend in the two-stage dispatch: the text
successfully returned by the first and (when made) second generateResponse
call. -/
structure GenOracle where
  gen1 : String
  gen2 : String
deriving Repr, DecidableEq

/-- Embedding of processMessage (chatbotController.js): validation, the
auth-required short-circuit, the parallel snapshot fetches, the stage-1
generation call, and the ALUMINI sentinel branch that fetches the alumni
dataset and re-queries exactly once.  The second component records the
data-store and generation effects in order. -/
def processMessage (oracle : GenOracle) (req : ChatReq) : ChatResp × List Effect :=
  match req.message with
  | none => (.validationError, [])
  | some m =>
    if (jsTrim m).length == 0 then (.validationError, [])
    else if requiresAuth m && req.user.isNone then (.authRequired, [])
    else
      let fetches :=
        [Effect.fetchTeam, Effect.fetchEvents, Effect.fetchBlogs] ++
          (match req.user with
           | some _ => [Effect.fetchCertificates, Effect.fetchRegisteredEvents]
           | none => [])
      let a1 := oracle.gen1
      if a1 != "" && jsTrim a1 == "ALUMINI" then
        (.ok oracle.gen2, fetches ++ [Effect.genCall 0, Effect.fetchAlumni, Effect.genCall 1])
      else
        (.ok a1, fetches ++ [Effect.genCall 0])

/-- Number of generation calls recorded in an effect list. -/
def genCallCount (effs : List Effect) : Nat :=
  (effs.filter (fun e => match e with | Effect.genCall _ => true | _ => false)).length

end Chat

namespace Mail

/-- Abstract transporter: whether a call to its sendMail resolves. -/
structure Transporter where
  sendResult : Bool
deriving Repr, DecidableEq

/-- The four exported transporters of config/nodeMailer.js. -/
structure MailTransporters where
  primary : Option Transporter
  secondary : Option Transporter
  tertiary : Option Transporter
  mailerSend : Option Transporter
deriving Repr, DecidableEq

/-- Embedding of config/nodeMailer.js after the Resend migration: the module
exports null for every transporter. -/
def mailTransporters : MailTransporters :=
  { primary := none, secondary := none, tertiary := none, mailerSend := none }

/-- Outcome of `await transporter.sendMail(...)`. -/
inductive SendOutcome
  | sent
  | threw
deriving Repr, DecidableEq

/-- Member access `transporter.sendMail` on null throws a TypeError, which the
surrounding try/catch turns into the failure path; a real transporter resolves
or rejects according to its own outcome. -/
def callSendMail : Option Transporter → SendOutcome
  | none => .threw
  | some t => if t.sendResult then .sent else .threw

/-- Request body of the send-email operation. -/
structure EmailReq where
  content : Option String
  senderName : Option String
  senderEmail : Option String
deriving Repr, DecidableEq

/-- The three responses of sendEmail. -/
inductive EmailResp
  | badRequest
  | sentOk
  | sendFailed
deriving Repr, DecidableEq

/-- HTTP status of each sendEmail response. -/
def EmailResp.httpStatus : EmailResp → Nat
  | .badRequest => 400
  | .sentOk => 200
  | .sendFailed => 500

/-- Embedding of sendEmail (emailController.js): reject empty content with
400, otherwise call sendMail on the configured primary transporter; the catch
branch answers 500, the success branch 200. -/
def sendEmail (req : EmailReq) : EmailResp :=
  match req.content with
  | none => .badRequest
  | some c =>
    if jsTrim c == "" then .badRequest
    else
      match callSendMail mailTransporters.primary with
      | .sent => .sentOk
      | .threw => .sendFailed

end Mail

/-- Zero call durations: upstream attempts answer instantaneously. -/
def durZero : Nat → Nat := fun _ => 0

/-- A rate-limit failure whose message carries the literal "429" marker. -/
def errRL : Gemini.UpErr :=
  { message := "429 Too Many Requests", status := 429, retryDelayMs := none }

/-- An upstream oracle failing every attempt with `errRL`. -/
def envRL : Nat → Gemini.Outcome := fun _ => .err errRL

/-- A rate-limit failure signalled by status 429 and "Too Many Requests",
with no "429" substring in the message. -/
def errTMQ : Gemini.UpErr :=
  { message := "Too Many Requests", status := 429, retryDelayMs := none }

/-- An upstream oracle failing every attempt with `errTMQ`. -/
def envTMQ : Nat → Gemini.Outcome := fun _ => .err errTMQ

/-- A retryable server failure suggesting a 10000 ms retry delay. -/
def errSuggest : Gemini.UpErr :=
  { message := "Internal Server Error", status := 500, retryDelayMs := some 10000 }

/-- Upstream oracle: first attempt fails with `errSuggest`, then succeeds. -/
def envSuggest : Nat → Gemini.Outcome :=
  fun k => if k == 0 then .err errSuggest else .ok "done"

/-- A retryable server failure with no suggested delay. -/
def err503 : Gemini.UpErr :=
  { message := "Service Unavailable", status := 503, retryDelayMs := none }

/-- An upstream oracle failing every attempt with `err503`. -/
def env503 : Nat → Gemini.Outcome := fun _ => .err err503

theorem attemptTimes_append (xs ys : List Gemini.Ev) :
    Gemini.attemptTimes (xs ++ ys) = Gemini.attemptTimes xs ++ Gemini.attemptTimes ys := by
  induction xs with
  | nil => rfl
  | cons x xs ih => cases x <;> simp [Gemini.attemptTimes, ih]

theorem rotateCount_append (xs ys : List Gemini.Ev) :
    Gemini.rotateCount (xs ++ ys) = Gemini.rotateCount xs + Gemini.rotateCount ys := by
  induction xs with
  | nil => simp [Gemini.rotateCount]
  | cons x xs ih => cases x <;> simp [Gemini.rotateCount, ih] <;> omega

theorem backoffSleeps_append (xs ys : List Gemini.Ev) :
    Gemini.backoffSleeps (xs ++ ys) = Gemini.backoffSleeps xs ++ Gemini.backoffSleeps ys := by
  induction xs with
  | nil => rfl
  | cons x xs ih => cases x <;> simp [Gemini.backoffSleeps, ih]

theorem retryable_of_429 (e : Gemini.UpErr)
    (h : containsSub e.message "429" = true) : Gemini.isRetryableError e = true := by
  unfold Gemini.isRetryableError
  rw [h]
  simp

theorem runAttempts_break (env : Nat → Gemini.Outcome) (dur : Nat → Nat)
    (key a fuel : Nat) (st : Gemini.RunSt) (e : Gemini.UpErr)
    (henv : env st.callNo = .err e) (h429 : containsSub e.message "429" = true) :
    Gemini.runAttempts env dur key a (fuel + 1) st =
      (.failedKey,
       ⟨st.time + dur st.callNo, st.time, st.currentKeyIndex, st.callNo + 1, some e⟩,
       [Gemini.Ev.attempt st.time key a]) := by
  have hr : Gemini.isRetryableError e = true := retryable_of_429 e h429
  unfold Gemini.runAttempts
  rw [henv]
  simp [hr, h429]

theorem runKeys_last_break (env : Nat → Gemini.Outcome) (dur : Nat → Nat)
    (numKeys : Nat) (st : Gemini.RunSt) (e : Gemini.UpErr)
    (henv : env st.callNo = .err e) (h429 : containsSub e.message "429" = true) :
    Gemini.runKeys env dur numKeys (0 + 1) st =
      (.exhausted (Gemini.exhaustMsg (some e)),
       ⟨st.time + dur st.callNo, st.time, st.currentKeyIndex, st.callNo + 1, some e⟩,
       [Gemini.Ev.attempt st.time st.currentKeyIndex 0]) := by
  have hbreak := runAttempts_break env dur st.currentKeyIndex 0
    Gemini.RETRY_CONFIG.maxRetries st e henv h429
  simp only [Gemini.runKeys]
  rw [hbreak]
  simp [Gemini.runKeys]

theorem runKeys_rotate_break (env : Nat → Gemini.Outcome) (dur : Nat → Nat)
    (numKeys f : Nat) (st : Gemini.RunSt) (e : Gemini.UpErr)
    (henv : env st.callNo = .err e) (h429 : containsSub e.message "429" = true) :
    Gemini.runKeys env dur numKeys (f + 1 + 1) st =
      ((Gemini.runKeys env dur numKeys (f + 1)
          ⟨st.time + dur st.callNo, st.time, (st.currentKeyIndex + 1) % numKeys,
           st.callNo + 1, some e⟩).1,
       (Gemini.runKeys env dur numKeys (f + 1)
          ⟨st.time + dur st.callNo, st.time, (st.currentKeyIndex + 1) % numKeys,
           st.callNo + 1, some e⟩).2.1,
       Gemini.Ev.attempt st.time st.currentKeyIndex 0 ::
         Gemini.Ev.rotate st.currentKeyIndex ((st.currentKeyIndex + 1) % numKeys) ::
         (Gemini.runKeys env dur numKeys (f + 1)
            ⟨st.time + dur st.callNo, st.time, (st.currentKeyIndex + 1) % numKeys,
             st.callNo + 1, some e⟩).2.2) := by
  have hbreak := runAttempts_break env dur st.currentKeyIndex 0
    Gemini.RETRY_CONFIG.maxRetries st e henv h429
  simp only [Gemini.runKeys]
  rw [hbreak]
  have hc : ((f + 1 : Nat) != 0) = true := by simp
  simp [hc]

theorem runKeys_allRL (env : Nat → Gemini.Outcome) (dur : Nat → Nat) (numKeys : Nat)
    (e : Nat → Gemini.UpErr)
    (henv : ∀ k, env k = .err (e k))
    (h429 : ∀ k, containsSub (e k).message "429" = true) :
    ∀ fuel t lrt idx cn le0, fuel ≠ 0 →
      (Gemini.runKeys env dur numKeys fuel ⟨t, lrt, idx, cn, le0⟩).1 =
        .exhausted (Gemini.exhaustMsg (some (e (cn + fuel - 1)))) ∧
      Gemini.rotateCount
        (Gemini.runKeys env dur numKeys fuel ⟨t, lrt, idx, cn, le0⟩).2.2 = fuel - 1 ∧
      Gemini.attemptCount
        (Gemini.runKeys env dur numKeys fuel ⟨t, lrt, idx, cn, le0⟩).2.2 = fuel ∧
      Gemini.backoffSleeps
        (Gemini.runKeys env dur numKeys fuel ⟨t, lrt, idx, cn, le0⟩).2.2 = [] := by
  intro fuel
  induction fuel with
  | zero => intro t lrt idx cn le0 h; exact absurd rfl h
  | succ f ih =>
    intro t lrt idx cn le0 _
    cases f with
    | zero =>
      rw [runKeys_last_break env dur numKeys ⟨t, lrt, idx, cn, le0⟩
        (e cn) (henv cn) (h429 cn)]
      refine ⟨?_, ?_, ?_, ?_⟩
      · simp
      · simp [Gemini.rotateCount]
      · simp [Gemini.attemptCount, Gemini.attemptTimes]
      · simp [Gemini.backoffSleeps]
    | succ f' =>
      rw [runKeys_rotate_break env dur numKeys f' ⟨t, lrt, idx, cn, le0⟩
        (e cn) (henv cn) (h429 cn)]
      have hrec := ih (t + dur cn) t ((idx + 1) % numKeys) (cn + 1)
        (some (e cn)) (Nat.succ_ne_zero f')
      dsimp only
      refine ⟨?_, ?_, ?_, ?_⟩
      · rw [hrec.1]
        have hix : cn + 1 + (f' + 1) - 1 = cn + (f' + 1 + 1) - 1 := by omega
        rw [hix]
      · simp only [Gemini.rotateCount]
        rw [hrec.2.1]
        omega
      · have h3 := hrec.2.2.1
        simp only [Gemini.attemptCount, Gemini.attemptTimes] at h3 ⊢
        simp [h3]
      · simp only [Gemini.backoffSleeps]
        exact hrec.2.2.2

theorem runAttempts_trace_head (env : Nat → Gemini.Outcome) (dur : Nat → Nat)
    (key a fuel : Nat) (st : Gemini.RunSt) :
    ∃ rest, (Gemini.runAttempts env dur key a (fuel + 1) st).2.2 =
      Gemini.Ev.attempt st.time key a :: rest := by
  simp only [Gemini.runAttempts]
  cases henv : env st.callNo with
  | ok t =>
    dsimp only
    exact ⟨[], rfl⟩
  | err e =>
    dsimp only
    split_ifs with h1 h2 h3
    · exact ⟨[], rfl⟩
    · exact ⟨_, rfl⟩
    · exact ⟨_, rfl⟩
    · exact ⟨[], rfl⟩

theorem runKeys_trace_head (env : Nat → Gemini.Outcome) (dur : Nat → Nat)
    (numKeys fuel t lrt idx cn : Nat) (le0 : Option Gemini.UpErr) (h : fuel ≠ 0) :
    ∃ rest, (Gemini.runKeys env dur numKeys fuel ⟨t, lrt, idx, cn, le0⟩).2.2 =
      Gemini.Ev.attempt t idx 0 :: rest := by
  cases fuel with
  | zero => exact absurd rfl h
  | succ f =>
    obtain ⟨rest, hr⟩ := runAttempts_trace_head env dur idx 0
      Gemini.RETRY_CONFIG.maxRetries ⟨t, lrt, idx, cn, le0⟩
    simp only [Gemini.runKeys]
    rcases hEq : Gemini.runAttempts env dur idx 0
      (Gemini.RETRY_CONFIG.maxRetries + 1) ⟨t, lrt, idx, cn, le0⟩ with ⟨res, stF, tr⟩
    rw [hEq] at hr
    dsimp only at hr
    cases res with
    | done s => exact ⟨rest, hr⟩
    | failedKey =>
      dsimp only
      split_ifs with hf
      · rw [hr]
        exact ⟨_, rfl⟩
      · rw [hr]
        exact ⟨_, rfl⟩

theorem runAttempts_backoff_bound (env : Nat → Gemini.Outcome) (dur : Nat → Nat)
    (key : Nat) (henv : ∀ k e, env k = .err e → e.retryDelayMs = none) :
    ∀ fuel a st d, d ∈ Gemini.backoffSleeps (Gemini.runAttempts env dur key a fuel st).2.2 →
      d ≤ Gemini.RETRY_CONFIG.maxDelayMs := by
  intro fuel
  induction fuel with
  | zero =>
    intro a st d hd
    simp [Gemini.runAttempts, Gemini.backoffSleeps] at hd
  | succ f ih =>
    intro a st d hd
    unfold Gemini.runAttempts at hd
    cases henvk : env st.callNo with
    | ok t =>
      rw [henvk] at hd
      simp [Gemini.backoffSleeps] at hd
    | err e =>
      rw [henvk] at hd
      have hnone : e.retryDelayMs = none := henv _ _ henvk
      have hdelay : Gemini.delayMsFor e a = Gemini.getBackoffDelay a := by
        simp [Gemini.delayMsFor, Gemini.getRetryDelayFromError, hnone]
      by_cases hb1 : (Gemini.isRetryableError e && containsSub e.message "429") = true
      · simp [hb1, Gemini.backoffSleeps] at hd
      · by_cases hb2 : ((f != 0) && Gemini.isRetryableError e) = true
        · simp [hb1, hb2, Gemini.backoffSleeps] at hd
          rcases hd with hd' | hd'
          · rw [hd', hdelay]
            exact min_le_right _ _
          · exact ih _ _ _ hd'
        · by_cases hb3 : (f != 0) = true
          · have hbr : Gemini.isRetryableError e = false := by
              cases hbe : Gemini.isRetryableError e
              · rfl
              · exact absurd (by simp [hb3, hbe]) hb2
            simp [hb1, hbr, hb3, Gemini.backoffSleeps] at hd
            exact ih _ _ _ hd
          · simp [hb1, hb2, hb3, Gemini.backoffSleeps] at hd

theorem runKeys_backoff_bound (env : Nat → Gemini.Outcome) (dur : Nat → Nat)
    (numKeys : Nat) (henv : ∀ k e, env k = .err e → e.retryDelayMs = none) :
    ∀ fuel st d, d ∈ Gemini.backoffSleeps (Gemini.runKeys env dur numKeys fuel st).2.2 →
      d ≤ Gemini.RETRY_CONFIG.maxDelayMs := by
  intro fuel
  induction fuel with
  | zero =>
    intro st d hd
    simp [Gemini.runKeys, Gemini.backoffSleeps] at hd
  | succ f ih =>
    intro st d hd
    unfold Gemini.runKeys at hd
    rcases hEq : Gemini.runAttempts env dur st.currentKeyIndex 0
      (Gemini.RETRY_CONFIG.maxRetries + 1) st with ⟨res, stF, tr⟩
    rw [hEq] at hd
    have htr : ∀ d', d' ∈ Gemini.backoffSleeps tr → d' ≤ Gemini.RETRY_CONFIG.maxDelayMs := by
      intro d' hd'
      exact runAttempts_backoff_bound env dur st.currentKeyIndex henv
        (Gemini.RETRY_CONFIG.maxRetries + 1) 0 st d' (by rw [hEq]; exact hd')
    cases res with
    | done t => exact htr d (by simpa using hd)
    | failedKey =>
      split_ifs at hd
      · simp only [backoffSleeps_append] at hd
        rcases List.mem_append.mp hd with hd' | hd'
        · exact htr d hd'
        · exact ih _ _ (by simpa [Gemini.backoffSleeps] using hd')
      · simp only [backoffSleeps_append] at hd
        rcases List.mem_append.mp hd with hd' | hd'
        · exact htr d hd'
        · exact ih _ _ hd'

/-- C1 counterexample: a dispatch in which the first attempt fails with a
rate-limit ("429") error rotates and re-attempts at the very same instant —
the two consecutive attempted upstream calls of this dispatch are 0 ms apart,
below the 500 ms minimum, because the throttle wait is not re-run before the
post-rotation attempt. -/
theorem throttle_gap_violated :
    Gemini.attemptTimes (Gemini.generateResponse envRL durZero 2 1000 0 0).2.2 =
      [1000, 1000] ∧
    Gemini.gapsAtLeast Gemini.MIN_REQUEST_INTERVAL_MS
      (Gemini.attemptTimes (Gemini.generateResponse envRL durZero 2 1000 0 0).2.2) = false := by
  decide

/-- C1 (amended): the throttle step runs exactly once per dispatch, before the
first upstream attempt: whenever the clock is at or past the recorded
last-attempt time, the first attempt of the dispatch is at least
MIN_REQUEST_INTERVAL_MS after that recorded time.  Later attempts of the same
dispatch are not re-throttled (see the counterexample). -/
theorem throttle_first_attempt_spacing (env : Nat → Gemini.Outcome) (dur : Nat → Nat)
    (numKeys time0 last0 key0 : Nat) (hmono : last0 ≤ time0) (hN : numKeys ≠ 0) :
    ∀ t, (Gemini.attemptTimes
        (Gemini.generateResponse env dur numKeys time0 last0 key0).2.2).head? = some t →
      last0 + Gemini.MIN_REQUEST_INTERVAL_MS ≤ t := by
  intro t ht
  simp only [Gemini.generateResponse] at ht
  by_cases hth : time0 - last0 < Gemini.MIN_REQUEST_INTERVAL_MS
  · simp only [hth, if_true] at ht
    obtain ⟨rest, hr⟩ := runKeys_trace_head env dur numKeys numKeys
      (time0 + (Gemini.MIN_REQUEST_INTERVAL_MS - (time0 - last0))) last0 key0 0 none hN
    rw [hr] at ht
    simp [Gemini.attemptTimes, attemptTimes_append] at ht
    simp only [Gemini.MIN_REQUEST_INTERVAL_MS] at *
    omega
  · simp only [hth, if_false] at ht
    obtain ⟨rest, hr⟩ := runKeys_trace_head env dur numKeys numKeys
      (time0 + 0) last0 key0 0 none hN
    rw [hr] at ht
    simp [Gemini.attemptTimes, attemptTimes_append] at ht
    simp only [Gemini.MIN_REQUEST_INTERVAL_MS] at *
    omega

/-- Witness for `throttle_first_attempt_spacing`: with the last attempt
recorded at 700 and the dispatch entering at 1000, the first attempt happens
at 1200 = 700 + 500. -/
theorem throttle_first_attempt_spacing_witness :
    (Gemini.attemptTimes
      (Gemini.generateResponse envRL durZero 2 1000 700 0).2.2).head? = some 1200 ∧
    700 + Gemini.MIN_REQUEST_INTERVAL_MS ≤ 1200 := by
  refine ⟨by decide, ?_⟩
  exact throttle_first_attempt_spacing envRL durZero 2 1000 700 0 (by decide) (by decide)
    1200 (by decide)

/-- C2 counterexample: with 3 credentials and every attempt failing with an
explicit rate-limit error, the orchestrator performs 2 credential switches,
not the 3 the claim states (the cursor is not rotated after the last
credential fails). -/
theorem rotations_not_n :
    Gemini.rotateCount (Gemini.generateResponse envRL durZero 3 1000 0 0).2.2 = 2 ∧
    (2 : Nat) ≠ 3 := by
  decide

/-- C2 (amended): for every pool of N ≥ 1 credentials, if every attempt fails
with a rate-limit error (message carrying the "429" marker), the dispatch
terminates after exactly N − 1 credential switches and reports exhaustion
with an error carrying the last observed failure's message. -/
theorem exhaustion_after_rotations (env : Nat → Gemini.Outcome) (dur : Nat → Nat)
    (numKeys time0 last0 key0 : Nat) (e : Nat → Gemini.UpErr)
    (hN : numKeys ≠ 0)
    (henv : ∀ k, env k = .err (e k))
    (h429 : ∀ k, containsSub (e k).message "429" = true)
    (hmsg : (e (numKeys - 1)).message ≠ "") :
    (Gemini.generateResponse env dur numKeys time0 last0 key0).1 =
      .exhausted ("Gemini API Error: " ++ (e (numKeys - 1)).message) ∧
    Gemini.rotateCount
      (Gemini.generateResponse env dur numKeys time0 last0 key0).2.2 = numKeys - 1 := by
  simp only [Gemini.generateResponse]
  by_cases hth : time0 - last0 < Gemini.MIN_REQUEST_INTERVAL_MS
  · simp only [hth, if_true]
    have h := runKeys_allRL env dur numKeys e henv h429 numKeys
      (time0 + (Gemini.MIN_REQUEST_INTERVAL_MS - (time0 - last0))) last0 key0 0 none hN
    rw [Nat.zero_add] at h
    refine ⟨?_, ?_⟩
    · rw [h.1]
      simp [Gemini.exhaustMsg, hmsg]
    · rw [rotateCount_append, h.2.1]
      simp [Gemini.rotateCount]
  · simp only [hth, if_false]
    have h := runKeys_allRL env dur numKeys e henv h429 numKeys
      (time0 + 0) last0 key0 0 none hN
    rw [Nat.zero_add] at h
    refine ⟨?_, ?_⟩
    · rw [h.1]
      simp [Gemini.exhaustMsg, hmsg]
    · rw [rotateCount_append, h.2.1]
      simp [Gemini.rotateCount]

/-- Witness for `exhaustion_after_rotations` with 2 credentials. -/
theorem exhaustion_after_rotations_witness :
    (Gemini.generateResponse envRL durZero 2 1000 0 0).1 =
      .exhausted ("Gemini API Error: " ++ errRL.message) ∧
    Gemini.rotateCount (Gemini.generateResponse envRL durZero 2 1000 0 0).2.2 = 1 := by
  exact exhaustion_after_rotations envRL durZero 2 1000 0 0 (fun _ => errRL)
    (by decide) (fun _ => rfl)
    (fun _ => (by decide : containsSub errRL.message "429" = true)) (by decide)

/-- C3 counterexample: an upstream failure signalling rate-limit through
status 429 and the text "Too Many Requests" (but without the literal "429"
substring in its message) is not rotated away from immediately: across a
2-credential pool every credential is attempted 3 times with backoff sleeps
in between (6 attempts, 4 sleeps) instead of one attempt per credential with
no delay. -/
theorem too_many_requests_not_rotated :
    Gemini.isRetryableError errTMQ = true ∧
    errTMQ.status = 429 ∧
    Gemini.attemptCount (Gemini.generateResponse envTMQ durZero 2 1000 0 0).2.2 = 6 ∧
    Gemini.backoffSleeps (Gemini.generateResponse envTMQ durZero 2 1000 0 0).2.2 =
      [1000, 2000, 1000, 2000] := by
  decide

/-- C3 (amended): the immediate-rotation path is taken exactly for failures
whose message contains the literal substring "429": under such failures every
credential is attempted exactly once, no backoff sleep occurs, and the pool
is rotated through without delay. -/
theorem immediate_rotation_on_429_text (env : Nat → Gemini.Outcome) (dur : Nat → Nat)
    (numKeys time0 last0 key0 : Nat) (e : Nat → Gemini.UpErr)
    (hN : numKeys ≠ 0)
    (henv : ∀ k, env k = .err (e k))
    (h429 : ∀ k, containsSub (e k).message "429" = true) :
    Gemini.attemptCount
      (Gemini.generateResponse env dur numKeys time0 last0 key0).2.2 = numKeys ∧
    Gemini.backoffSleeps
      (Gemini.generateResponse env dur numKeys time0 last0 key0).2.2 = [] ∧
    Gemini.rotateCount
      (Gemini.generateResponse env dur numKeys time0 last0 key0).2.2 = numKeys - 1 := by
  simp only [Gemini.generateResponse]
  by_cases hth : time0 - last0 < Gemini.MIN_REQUEST_INTERVAL_MS
  · simp only [hth, if_true]
    have h := runKeys_allRL env dur numKeys e henv h429 numKeys
      (time0 + (Gemini.MIN_REQUEST_INTERVAL_MS - (time0 - last0))) last0 key0 0 none hN
    refine ⟨?_, ?_, ?_⟩
    · have h3 := h.2.2.1
      simp only [Gemini.attemptCount] at h3 ⊢
      rw [attemptTimes_append]
      simp [Gemini.attemptTimes, h3]
    · rw [backoffSleeps_append, h.2.2.2]
      simp [Gemini.backoffSleeps]
    · rw [rotateCount_append, h.2.1]
      simp [Gemini.rotateCount]
  · simp only [hth, if_false]
    simp only [Nat.add_zero]
    have h := runKeys_allRL env dur numKeys e henv h429 numKeys
      time0 last0 key0 0 none hN
    refine ⟨?_, ?_, ?_⟩
    · have h3 := h.2.2.1
      simp only [Gemini.attemptCount] at h3 ⊢
      rw [attemptTimes_append]
      simp [Gemini.attemptTimes, h3]
    · rw [backoffSleeps_append, h.2.2.2]
      simp [Gemini.backoffSleeps]
    · rw [rotateCount_append, h.2.1]
      simp [Gemini.rotateCount]

/-- Witness for `immediate_rotation_on_429_text` with 2 credentials. -/
theorem immediate_rotation_on_429_text_witness :
    Gemini.attemptCount (Gemini.generateResponse envRL durZero 2 1400 100 0).2.2 = 2 ∧
    Gemini.backoffSleeps (Gemini.generateResponse envRL durZero 2 1400 100 0).2.2 = [] ∧
    Gemini.rotateCount (Gemini.generateResponse envRL durZero 2 1400 100 0).2.2 = 1 := by
  exact immediate_rotation_on_429_text envRL durZero 2 1400 100 0 (fun _ => errRL)
    (by decide) (fun _ => rfl)
    (fun _ => (by decide : containsSub errRL.message "429" = true))

/-- C4 counterexample: a retryable failure carrying a 10000 ms
upstream-suggested delay makes the orchestrator sleep 10000 ms before the
retry — more than the configured 5000 ms maximum, so the claimed bound on
every slept delay is false. -/
theorem suggested_delay_uncapped :
    Gemini.backoffSleeps (Gemini.generateResponse envSuggest durZero 1 1000 0 0).2.2 =
      [10000] ∧
    ¬(10000 ≤ Gemini.RETRY_CONFIG.maxDelayMs) := by
  decide

/-- C4 (amended): the delay slept before a same-credential retry is the
upstream-suggested delay when a nonzero one is present in the failure payload
and otherwise min(maxDelay, initialDelay × backoffMultiplier ^ attempt); the
computed backoff is always at most the configured maximum, and in every
dispatch whose failures carry no suggested delay every slept backoff delay is
at most the configured maximum — the bound does not extend to suggested
delays (see the counterexample). -/
theorem backoff_delay_policy :
    (∀ e a d, Gemini.getRetryDelayFromError e = some d → d ≠ 0 →
      Gemini.delayMsFor e a = d) ∧
    (∀ e a, Gemini.getRetryDelayFromError e = none →
      Gemini.delayMsFor e a = Gemini.getBackoffDelay a) ∧
    (∀ a, Gemini.getBackoffDelay a ≤ Gemini.RETRY_CONFIG.maxDelayMs) ∧
    (∀ env dur numKeys time0 last0 key0,
      (∀ k e, env k = Gemini.Outcome.err e → e.retryDelayMs = none) →
      ∀ d, d ∈ Gemini.backoffSleeps
          (Gemini.generateResponse env dur numKeys time0 last0 key0).2.2 →
        d ≤ Gemini.RETRY_CONFIG.maxDelayMs) := by
  refine ⟨?_, ?_, ?_, ?_⟩
  · intro e a d h hd
    simp [Gemini.delayMsFor, h, hd]
  · intro e a h
    simp [Gemini.delayMsFor, h]
  · intro a
    exact min_le_right _ _
  · intro env dur numKeys time0 last0 key0 henv d hd
    unfold Gemini.generateResponse at hd
    by_cases hth : time0 - last0 < Gemini.MIN_REQUEST_INTERVAL_MS
    · simp only [hth, if_true, backoffSleeps_append] at hd
      rcases List.mem_append.mp hd with hd' | hd'
      · simp [Gemini.backoffSleeps] at hd'
      · exact runKeys_backoff_bound env dur numKeys henv numKeys _ d hd'
    · simp only [hth, if_false, backoffSleeps_append] at hd
      rcases List.mem_append.mp hd with hd' | hd'
      · simp [Gemini.backoffSleeps] at hd'
      · exact runKeys_backoff_bound env dur numKeys henv numKeys _ d hd'

/-- Witness for `backoff_delay_policy` at concrete inputs: a suggested 10000
ms delay is used as-is, an absent suggestion falls back to the computed
backoff, and a concrete suggestion-free dispatch only sleeps bounded backoff
delays (1000 ms among them). -/
theorem backoff_delay_policy_witness :
    Gemini.delayMsFor errSuggest 0 = 10000 ∧
    Gemini.delayMsFor err503 1 = Gemini.getBackoffDelay 1 ∧
    Gemini.getBackoffDelay 9 ≤ Gemini.RETRY_CONFIG.maxDelayMs ∧
    1000 ≤ Gemini.RETRY_CONFIG.maxDelayMs := by
  refine ⟨?_, ?_, ?_, ?_⟩
  · exact backoff_delay_policy.1 errSuggest 0 10000 rfl (by decide)
  · exact backoff_delay_policy.2.1 err503 1 rfl
  · exact backoff_delay_policy.2.2.1 9
  · exact backoff_delay_policy.2.2.2 env503 durZero 1 1000 0 0
      (fun k e h => by
        have h2 : Gemini.Outcome.err err503 = Gemini.Outcome.err e := h
        injection h2 with h3
        rw [← h3]
        exact rfl) 1000 (by decide)

theorem strCmpInt_le_iff (a b : String) : Chat.strCmpInt a b ≤ 0 ↔ a ≤ b := by
  unfold Chat.strCmpInt
  split_ifs with h1 h2
  · simp [le_of_lt h1]
  · rw [beq_iff_eq] at h2
    simp [h2]
  · rw [Bool.not_eq_true, beq_eq_false_iff_ne] at h2
    constructor
    · intro h; omega
    · intro h
      rcases lt_or_eq_of_le h with h' | h'
      · exact absurd h' h1
      · exact absurd h' h2

theorem eventCmp_le_iff (a b : Chat.EventData) :
    Chat.eventCmp a b ≤ 0 ↔ Chat.eventLe a b := by
  unfold Chat.eventCmp Chat.eventLe
  split_ifs with h1 h2
  · rw [bne_iff_ne] at h1
    constructor
    · intro h; exact Or.inl (by omega)
    · rintro (h | ⟨h, -⟩)
      · omega
      · exact absurd h h1
  · rw [Bool.not_eq_true, bne_eq_false_iff_eq] at h1
    rw [bne_iff_ne] at h2
    constructor
    · intro h; exact Or.inr ⟨h1, Or.inl (by omega)⟩
    · rintro (h | ⟨-, h | ⟨h, -⟩⟩)
      · omega
      · omega
      · exact absurd h h2
  · rw [Bool.not_eq_true, bne_eq_false_iff_eq] at h1 h2
    rw [strCmpInt_le_iff]
    constructor
    · intro h; exact Or.inr ⟨h1, Or.inr ⟨h2, h⟩⟩
    · rintro (h | ⟨-, h | ⟨-, h⟩⟩)
      · omega
      · omega
      · exact h

theorem eventLe_total (a b : Chat.EventData) : Chat.eventLe a b ∨ Chat.eventLe b a := by
  unfold Chat.eventLe
  rcases lt_trichotomy a.eventPriority b.eventPriority with h | h | h
  · exact Or.inl (Or.inl h)
  · rcases lt_trichotomy a.eventDate b.eventDate with h2 | h2 | h2
    · exact Or.inl (Or.inr ⟨h, Or.inl h2⟩)
    · rcases le_total a.eventTitle b.eventTitle with h3 | h3
      · exact Or.inl (Or.inr ⟨h, Or.inr ⟨h2, h3⟩⟩)
      · exact Or.inr (Or.inr ⟨h.symm, Or.inr ⟨h2.symm, h3⟩⟩)
    · exact Or.inr (Or.inr ⟨h.symm, Or.inl h2⟩)
  · exact Or.inr (Or.inl h)

theorem eventLe_trans (a b c : Chat.EventData) :
    Chat.eventLe a b → Chat.eventLe b c → Chat.eventLe a c := by
  unfold Chat.eventLe
  rintro (h1 | ⟨h1, h1'⟩) (h2 | ⟨h2, h2'⟩)
  · exact Or.inl (lt_trans h1 h2)
  · exact Or.inl (h2 ▸ h1)
  · exact Or.inl (h1 ▸ h2)
  · refine Or.inr ⟨h1.trans h2, ?_⟩
    rcases h1' with hd1 | ⟨hd1, ht1⟩ <;> rcases h2' with hd2 | ⟨hd2, ht2⟩
    · exact Or.inl (lt_trans hd1 hd2)
    · exact Or.inl (hd2 ▸ hd1)
    · exact Or.inl (hd1 ▸ hd2)
    · exact Or.inr ⟨hd1.trans hd2, le_trans ht1 ht2⟩

theorem eventLeB_trans (a b c : Chat.EventData) :
    Chat.eventLeB a b → Chat.eventLeB b c → Chat.eventLeB a c := by
  unfold Chat.eventLeB
  simp only [decide_eq_true_eq]
  rw [eventCmp_le_iff, eventCmp_le_iff, eventCmp_le_iff]
  exact eventLe_trans a b c

theorem eventLeB_total (a b : Chat.EventData) :
    Chat.eventLeB a b || Chat.eventLeB b a := by
  unfold Chat.eventLeB
  rcases eventLe_total a b with h | h
  · simp [(eventCmp_le_iff a b).mpr h]
  · simp [(eventCmp_le_iff b a).mpr h]

/-- C7: for every fetched form list, the ongoing-events output of
fetchEventsData is sorted by (priority ascending, then date ascending, then
title ascending under the modelled locale comparison), and the list injected
into the assembled turn is a prefix of it of length at most 15. -/
theorem ongoing_sorted_and_capped (forms : List Chat.Form) :
    List.Sorted Chat.eventLe (Chat.fetchEventsData forms).ongoingEvents ∧
    (Chat.ongoingIncluded (Chat.fetchEventsData forms)).length ≤ 15 ∧
    ∃ rest, (Chat.fetchEventsData forms).ongoingEvents =
      Chat.ongoingIncluded (Chat.fetchEventsData forms) ++ rest := by
  refine ⟨?_, ?_, ?_⟩
  · show List.Pairwise Chat.eventLe (Chat.fetchEventsData forms).ongoingEvents
    have h := @List.sorted_mergeSort Chat.EventData Chat.eventLeB
      (fun a b c => eventLeB_trans a b c) (fun a b => eventLeB_total a b)
      ((((List.filterMap (fun f =>
          match f.info with
          | some i => if i.isPublic == some true then some (f, i) else none
          | none => none) forms).filter
            (fun p => !(Chat.jsTruthyB p.2.isEventPast))).map
              (fun p => Chat.mkEventData p.1 p.2)))
    refine List.Pairwise.imp ?_ h
    intro a b hab
    exact (eventCmp_le_iff a b).mp (by simpa [Chat.eventLeB] using hab)
  · exact List.length_take_le 15 _
  · exact ⟨(Chat.fetchEventsData forms).ongoingEvents.drop 15,
      (List.take_append_drop 15 _).symm⟩

/-- C6 counterexample: with every snapshot empty, the assembled turn contains
the explicit ongoing-events marker but no past-events, articles, or roster
marker at all — three of the four categories are silently omitted. -/
theorem context_empty_categories_omitted :
    FED.containsSub (Chat.buildMessageWithContext "hi" [] ⟨[], []⟩ [] none)
      "[ONGOING/LIVE EVENTS]: No ongoing events at the moment." = true ∧
    FED.containsSub (Chat.buildMessageWithContext "hi" [] ⟨[], []⟩ [] none)
      "[PAST EVENTS" = false ∧
    FED.containsSub (Chat.buildMessageWithContext "hi" [] ⟨[], []⟩ [] none)
      "[BLOGS" = false ∧
    FED.containsSub (Chat.buildMessageWithContext "hi" [] ⟨[], []⟩ [] none)
      "[TEAM DATA" = false := by
  decide

/-- C6 (amended): only the ongoing-events category emits an explicit marker
when empty; empty roster, past-events and articles snapshots contribute
nothing to the assembled turn, which then consists of the ongoing-events
marker followed directly by the user query. -/
theorem context_only_ongoing_empty_marker (msg : String) :
    Chat.buildMessageWithContext msg [] ⟨[], []⟩ [] none =
      "[ONGOING/LIVE EVENTS]: No ongoing events at the moment.\n\n[USER QUERY]: " ++ msg := by
  rfl

/-- C8 counterexample: the record value "0" parses to the integer 0, yet the
assembled priority is the default 999, not the parsed value. -/
theorem priority_zero_defaulted :
    Chat.parseIntJS "0" = some 0 ∧
    Chat.eventPriorityOf (some "0") = 999 ∧ (999 : Int) ≠ 0 := by
  decide

/-- C8 (amended): the assembled event priority is `eventPriorityOf` of the
record's raw priority value, and the default 999 is used exactly when that
value is absent, unparseable, or parses to the JavaScript-falsy integer 0;
any other parsed integer is kept. -/
theorem priority_parse_policy :
    (∀ f i, (Chat.mkEventData f i).eventPriority = Chat.eventPriorityOf i.eventPriority) ∧
    Chat.eventPriorityOf none = 999 ∧
    (∀ s, Chat.parseIntJS s = none → Chat.eventPriorityOf (some s) = 999) ∧
    (∀ s, Chat.parseIntJS s = some 0 → Chat.eventPriorityOf (some s) = 999) ∧
    (∀ s n, Chat.parseIntJS s = some n → n ≠ 0 → Chat.eventPriorityOf (some s) = n) := by
  refine ⟨fun f i => rfl, rfl, ?_, ?_, ?_⟩
  · intro s h
    simp [Chat.eventPriorityOf, h]
  · intro s h
    simp [Chat.eventPriorityOf, h]
  · intro s n h hn
    simp [Chat.eventPriorityOf, h, hn]

/-- Witness for `priority_parse_policy` at concrete inputs. -/
theorem priority_parse_policy_witness :
    Chat.eventPriorityOf (some "7") = 7 ∧ Chat.eventPriorityOf (some "abc") = 999 := by
  constructor
  · exact priority_parse_policy.2.2.2.2 "7" 7 (by decide) (by decide)
  · exact priority_parse_policy.2.2.1 "abc" (by decide)

/-- C5 counterexample: a stage-1 output "hello " with trailing whitespace is
not the sentinel, and the final result is the raw untrimmed output, not the
trimmed one the claim promises. -/
theorem stage1_output_not_trimmed :
    (Chat.processMessage ⟨"hello ", "second"⟩ ⟨some "tell me about fed", none⟩).1 =
      Chat.ChatResp.ok "hello " ∧
    jsTrim "hello " = "hello" ∧
    Chat.ChatResp.ok "hello " ≠ Chat.ChatResp.ok (jsTrim "hello ") := by
  decide

/-- C5 (amended): when the trimmed stage-1 output differs from the sentinel,
no second generation call occurs and the final result is the raw untrimmed
stage-1 output (trimming is applied only for the comparison); on an exact
trimmed match exactly one re-query occurs and its output is returned as-is,
with no sentinel check applied to it. -/
theorem two_stage_dispatch (oracle : Chat.GenOracle) (req : Chat.ChatReq) (m : String)
    (hm : req.message = some m) (hval : (jsTrim m).length ≠ 0)
    (hauth : (Chat.requiresAuth m && req.user.isNone) = false) :
    (jsTrim oracle.gen1 ≠ "ALUMINI" →
      (Chat.processMessage oracle req).1 = Chat.ChatResp.ok oracle.gen1 ∧
      Chat.genCallCount (Chat.processMessage oracle req).2 = 1) ∧
    (oracle.gen1 ≠ "" → jsTrim oracle.gen1 = "ALUMINI" →
      (Chat.processMessage oracle req).1 = Chat.ChatResp.ok oracle.gen2 ∧
      Chat.genCallCount (Chat.processMessage oracle req).2 = 2) := by
  have hval' : ((jsTrim m).length == 0) = false := by simpa using hval
  constructor
  · intro hne
    have hcond : (oracle.gen1 != "" && jsTrim oracle.gen1 == "ALUMINI") = false := by
      have : (jsTrim oracle.gen1 == "ALUMINI") = false := by simpa using hne
      simp [this]
    unfold Chat.processMessage
    rw [hm]
    simp only [hval', Bool.false_eq_true, if_false, hauth, hcond]
    cases req.user <;> simp [Chat.genCallCount]
  · intro hne hsent
    have hcond : (oracle.gen1 != "" && jsTrim oracle.gen1 == "ALUMINI") = true := by
      have h1 : (oracle.gen1 != "") = true := by simpa using hne
      have h2 : (jsTrim oracle.gen1 == "ALUMINI") = true := by simpa using hsent
      simp [h1, h2]
    unfold Chat.processMessage
    rw [hm]
    simp only [hval', Bool.false_eq_true, if_false, hauth, hcond]
    cases req.user <;> simp [Chat.genCallCount]

/-- Witness for `two_stage_dispatch`: the sentinel branch fires on a padded
" ALUMINI " stage-1 output, the stage-2 output is returned as-is (even though
it again equals the sentinel), and two generation calls occur. -/
theorem two_stage_dispatch_witness :
    (Chat.processMessage ⟨" ALUMINI ", "ALUMINI"⟩ ⟨some "who are the alumni", none⟩).1 =
      Chat.ChatResp.ok "ALUMINI" ∧
    Chat.genCallCount
      (Chat.processMessage ⟨" ALUMINI ", "ALUMINI"⟩ ⟨some "who are the alumni", none⟩).2 = 2 := by
  exact (two_stage_dispatch ⟨" ALUMINI ", "ALUMINI"⟩ ⟨some "who are the alumni", none⟩
    "who are the alumni" rfl (by decide) (by decide)).2 (by decide) (by decide)

/-- C9: a valid message matching a personal-data keyword from an
unauthenticated caller short-circuits into the distinct auth-required signal
(HTTP 200, not the validation error), with no data-store fetch and no
generation call performed. -/
theorem auth_required_short_circuit (oracle : Chat.GenOracle) (req : Chat.ChatReq)
    (m : String) (hm : req.message = some m) (hval : (jsTrim m).length ≠ 0)
    (hkw : Chat.requiresAuth m = true) (huser : req.user = none) :
    Chat.processMessage oracle req = (Chat.ChatResp.authRequired, []) ∧
    Chat.ChatResp.httpStatus Chat.ChatResp.authRequired = 200 ∧
    Chat.ChatResp.authRequired ≠ Chat.ChatResp.validationError := by
  have hval' : ((jsTrim m).length == 0) = false := by simpa using hval
  refine ⟨?_, rfl, by simp⟩
  unfold Chat.processMessage
  rw [hm]
  simp [hval', hkw, huser]

/-- Witness for `auth_required_short_circuit` on the concrete message
"show my certificates" with no caller identity. -/
theorem auth_required_short_circuit_witness :
    Chat.processMessage ⟨"g1", "g2"⟩ ⟨some "show my certificates", none⟩ =
      (Chat.ChatResp.authRequired, []) ∧
    Chat.ChatResp.httpStatus Chat.ChatResp.authRequired = 200 := by
  have h := auth_required_short_circuit ⟨"g1", "g2"⟩ ⟨some "show my certificates", none⟩
    "show my certificates" rfl (by decide) (by decide) rfl
  exact ⟨h.1, h.2.1⟩

/-- C10: with the transporter module exporting null for every transporter,
every send-email request with non-empty content takes the catch branch and
answers the 500 delivery-failure response; the success branch is unreachable
for every request. -/
theorem chatbot_email_always_fails (req : Mail.EmailReq) (c : String)
    (hc : req.content = some c) (hne : jsTrim c ≠ "") :
    Mail.sendEmail req = Mail.EmailResp.sendFailed ∧
    Mail.EmailResp.httpStatus Mail.EmailResp.sendFailed = 500 ∧
    (∀ r : Mail.EmailReq, Mail.sendEmail r ≠ Mail.EmailResp.sentOk) := by
  have hne' : (jsTrim c == "") = false := by simpa using hne
  refine ⟨?_, rfl, ?_⟩
  · unfold Mail.sendEmail
    rw [hc]
    simp [hne', Mail.callSendMail, Mail.mailTransporters]
  · intro r
    unfold Mail.sendEmail
    cases hr : r.content with
    | none => simp
    | some c' =>
      dsimp only
      split_ifs <;> simp [Mail.callSendMail, Mail.mailTransporters]

/-- Witness for `chatbot_email_always_fails` on a concrete request. -/
theorem chatbot_email_always_fails_witness :
    Mail.sendEmail ⟨some "hello fed", none, none⟩ = Mail.EmailResp.sendFailed ∧
    Mail.EmailResp.httpStatus Mail.EmailResp.sendFailed = 500 := by
  have h := chatbot_email_always_fails ⟨some "hello fed", none, none⟩ "hello fed" rfl (by decide)
  exact ⟨h.1, h.2.1⟩

end FED
